import Mathlib

/-!
Shallow embedding of the wasmworker message bridge:
the Controller (`WasmWorker` in `packages/sdk/src/bridge.ts`) and the
Execution Runtime (`packages/sdk/src/worker/runtime.ts`), over the
message/type contracts of `packages/sdk/src/types.ts`.

JavaScript values exchanged on the channel are modelled by `Value`;
`undefined`/absent optional fields are modelled by `Option`, and JS `null`
by `Value.vNull`. The Controller's two `Map` registries are modelled as
functions `String → Option _` (a JS `Map` is semantically a partial map;
insertion order is never consulted by this code). Promise settlement is
modelled by an explicit `Event` list emitted by each operation: invoking a
stored `resolve`/`reject` callback appends the corresponding event.
-/

namespace WasmWorker

/-- JS-like structured values carried in payloads, results and details. -/
inductive Value where
  | vNull
  | vBool (b : Bool)
  | vNum (n : Int)
  | vStr (s : String)
  | vArr (elems : List Value)
  | vObj (fields : List (String × Value))

/-- The closed `ErrorCode` enumeration of `types.ts`. -/
inductive ErrorCode where
  | MODULE_FETCH_FAILED
  | WASM_INIT_FAILED
  | FN_NOT_FOUND
  | INVALID_PAYLOAD
  | WASM_TRAP
  | NOT_INITIALIZED
  | UNKNOWN_ERROR
deriving DecidableEq

/-- The structured error of an `ErrorMsg`: `{code, message, details?}`. -/
structure ErrInfo where
  code : ErrorCode
  message : String
  details : Option Value

/-- Messages received by the Controller from the worker (`WorkerResponse`
in `types.ts`): `result`, `error`, `stream_chunk`, `stream_close`, `ready`. -/
inductive WorkerResponse where
  | result (id : String) (value : Value)
  | error (id : String) (e : ErrInfo)
  | streamChunk (id : String) (value : Value)
  | streamClose (id : String)
  | ready

/-- Messages posted by the Controller to the worker (`WorkerRequest`
in `types.ts`): `init`, `call`, `stream_open`. -/
inductive WorkerRequestMsg where
  | initMsg (id : String) (moduleUrl : String) (cfg : Option Value)
  | callMsg (id : String) (fn : String) (payload : Option Value)
  | streamOpenMsg (id : String) (fn : String) (payload : Option Value)

/-- The correlation id carried by an outbound request message. -/
def WorkerRequestMsg.reqId : WorkerRequestMsg → String
  | .initMsg id _ _ => id
  | .callMsg id _ _ => id
  | .streamOpenMsg id _ _ => id

/-- A pending unary entry's resolve closure: the entry registered by
`init` additionally sets `this.initialized = true` when resolved
(bridge.ts lines 208-214); an entry registered by `call` just resolves. -/
inductive PendingKind where
  | initReq
  | callReq
deriving DecidableEq

/-- State of the resolve/reject callback pair stored in a
`StreamingRequest`. The source initialises both to no-op functions
(`resolve: () => {}`), reassigns them to a live promise's callbacks when
the consumer awaits, and a fired promise callback becomes a stale no-op.
In every state the stored `resolve` is a function and hence truthy. -/
inductive ResolverState where
  | noop
  | live
  | stale
deriving DecidableEq

/-- The `StreamingRequest` record of `types.ts`: buffered chunk queue,
stored resolve/reject pair (one `ResolverState`, since both are always
reassigned together), and the `done` flag. -/
structure StreamingRequest where
  queue : List Value
  resolver : ResolverState
  done : Bool

/-- The `StreamingRequest` created by `stream()` before posting
`stream_open`: empty queue, no-op callbacks, not done. -/
def newStreamingRequest : StreamingRequest :=
  { queue := [], resolver := .noop, done := false }

/-- The Controller's instance state (`WasmWorker` private fields):
`worker` (whether the channel exists), `initialized`, and the two
id-keyed registries. -/
structure ControllerState where
  worker : Bool
  initialized : Bool
  pendingRequests : String → Option PendingKind
  streamingRequests : String → Option StreamingRequest

/-- Semantics of `Map.set`. -/
def mapSet (m : String → Option α) (k : String) (v : α) : String → Option α :=
  fun k2 => if k2 = k then some v else m k2

/-- Semantics of `Map.delete`. -/
def mapDelete (m : String → Option α) (k : String) : String → Option α :=
  fun k2 => if k2 = k then none else m k2

/-- Semantics of `Map.clear`, and of a freshly constructed empty `Map`. -/
def mapEmpty : String → Option α := fun _ => none

/-- The state of a freshly constructed `WasmWorker` (private constructor):
no worker, not initialized, both registries empty. -/
def initialCtrl : ControllerState :=
  { worker := false, initialized := false
    pendingRequests := mapEmpty, streamingRequests := mapEmpty }

/-- Observable interaction with a waiting stream consumer. -/
inductive StreamEvent where
  | resumed (value : Option Value) (done : Bool)
  | failed (e : ErrInfo)

/-- Observable settlements performed by the Controller: invoking the
stored `resolve`/`reject` of a pending unary entry, or firing the
callback pair of a streaming entry. -/
inductive Event where
  | resolved (id : String) (value : Value)
  | rejected (id : String) (e : ErrInfo)
  | streamEvt (id : String) (ev : StreamEvent)

/-- Invoke the stored stream `resolve` with an `IteratorResult`
`{value, done}`. A live callback fires (waking the consumer) and becomes
stale; a no-op or stale callback does nothing. -/
def fireResolve (r : ResolverState) (value : Option Value) (isDone : Bool) :
    ResolverState × List StreamEvent :=
  match r with
  | .live => (.stale, [.resumed value isDone])
  | r => (r, [])

/-- Invoke the stored stream `reject` with an error. -/
def fireReject (r : ResolverState) (e : ErrInfo) :
    ResolverState × List StreamEvent :=
  match r with
  | .live => (.stale, [.failed e])
  | r => (r, [])

/-- The `stream_chunk` branch of `handleMessage` (bridge.ts lines
258-264), acting on the streaming record: `queue.push(msg.value)`, then —
since `streaming.resolve` is always a function, the `if (streaming.resolve)`
guard always passes — `queue.shift()` and pass the shifted value to the
stored resolve. -/
def onChunk (s : StreamingRequest) (v : Value) :
    StreamingRequest × List StreamEvent :=
  let q := s.queue ++ [v]
  let fr := fireResolve s.resolver q.head? false
  ({ s with queue := q.tail, resolver := fr.1 }, fr.2)

/-- The `stream_close` branch of `handleMessage` (bridge.ts lines
265-272), acting on the streaming record: set `done`, and — the
`if (streaming.resolve)` guard always passing — resolve with
`{value: undefined, done: true}`. -/
def onClose (s : StreamingRequest) : StreamingRequest × List StreamEvent :=
  let fr := fireResolve s.resolver none true
  ({ s with done := true, resolver := fr.1 }, fr.2)

/-- The Controller's inbound message handler (`handleMessage`, bridge.ts
lines 232-274). Returns the updated state and the settlement events
performed, in order. -/
def handleMessage (st : ControllerState) (msg : WorkerResponse) :
    ControllerState × List Event :=
  match msg with
  | .ready => (st, [])
  | .result id v =>
    match st.pendingRequests id with
    | some k =>
      let st1 := if k = PendingKind.initReq then { st with initialized := true } else st
      ({ st1 with pendingRequests := mapDelete st1.pendingRequests id },
       [.resolved id v])
    | none => (st, [])
  | .error id e =>
    let step1 : ControllerState × List Event :=
      match st.pendingRequests id with
      | some _ =>
        ({ st with pendingRequests := mapDelete st.pendingRequests id },
         [.rejected id e])
      | none => (st, [])
    match st.streamingRequests id with
    | some s =>
      let fr := fireReject s.resolver e
      ({ step1.1 with streamingRequests := mapDelete step1.1.streamingRequests id },
       step1.2 ++ fr.2.map (Event.streamEvt id))
    | none => step1
  | .streamChunk id v =>
    match st.streamingRequests id with
    | some s =>
      let oc := onChunk s v
      ({ st with streamingRequests := mapSet st.streamingRequests id oc.1 },
       oc.2.map (Event.streamEvt id))
    | none => (st, [])
  | .streamClose id =>
    match st.streamingRequests id with
    | some s =>
      let oc := onClose s
      ({ st with streamingRequests := mapDelete st.streamingRequests id },
       oc.2.map (Event.streamEvt id))
    | none => (st, [])

/-- Primitive side effects performed by a Controller send operation, in
source statement order: registering an entry in a registry, posting an
outbound message on the channel. -/
inductive Action where
  | registerPending (id : String) (k : PendingKind)
  | registerStreaming (id : String)
  | post (m : WorkerRequestMsg)

/-- Whether an action installs a registry entry for the given id. -/
def registersFor : Action → String → Bool
  | .registerPending id _, i => id == i
  | .registerStreaming id, i => id == i
  | .post _, _ => false

/-- Effect of one primitive action on the Controller state. Posting is a
pure channel effect and does not change Controller state. -/
def applyAction (st : ControllerState) : Action → ControllerState
  | .registerPending id k =>
    { st with pendingRequests := mapSet st.pendingRequests id k }
  | .registerStreaming id =>
    { st with streamingRequests := mapSet st.streamingRequests id newStreamingRequest }
  | .post _ => st

/-- Run a list of actions in order. -/
def runActions (st : ControllerState) (tr : List Action) : ControllerState :=
  tr.foldl applyAction st

/-- The action trace of the success path of `call` (bridge.ts lines
303-319): `pendingRequests.set(id, ...)` then `postMessage`. -/
def callActions (freshId fn : String) (payload : Option Value) : List Action :=
  [.registerPending freshId .callReq, .post (.callMsg freshId fn payload)]

/-- The method `call(fn, payload?, options?)` (bridge.ts lines 290-320), with the
generated unique id passed explicitly. Returns the new state, the action
trace performed, and `some message` when the call threw synchronously
(`'Worker not initialized'` when the channel is gone, `'Worker not ready'`
when the `initialized` flag is false). -/
def call (st : ControllerState) (fn : String) (payload : Option Value)
    (freshId : String) : ControllerState × List Action × Option String :=
  if st.worker = false then (st, [], some "Worker not initialized")
  else if st.initialized = false then (st, [], some "Worker not ready")
  else (runActions st (callActions freshId fn payload),
        callActions freshId fn payload, none)

/-- The action trace of `init` (bridge.ts lines 207-221):
`pendingRequests.set(id, {resolve that sets initialized, reject})` then
`postMessage({id, type:'init', moduleUrl, init})`. -/
def initActions (freshId url : String) (cfg : Option Value) : List Action :=
  [.registerPending freshId .initReq, .post (.initMsg freshId url cfg)]

/-- The private `init` (bridge.ts lines 190-227): creates the worker
(`worker := true`), then performs `initActions`. -/
def initSend (st : ControllerState) (freshId url : String) (cfg : Option Value) :
    ControllerState × List Action :=
  (runActions { st with worker := true } (initActions freshId url cfg),
   initActions freshId url cfg)

/-- The action trace of the success path of `stream` (bridge.ts lines
337-351): `streamingRequests.set(id, {queue:[], resolve:noop, reject:noop,
done:false})` then `postMessage({id, type:'stream_open', fn, payload})`. -/
def streamActions (freshId fn : String) (payload : Option Value) : List Action :=
  [.registerStreaming freshId, .post (.streamOpenMsg freshId fn payload)]

/-- The method `stream(fn, payload?)` up to its first suspension (bridge.ts lines
325-351): the same two precondition throws as `call`, then registration
and posting of `stream_open`. -/
def streamOpen (st : ControllerState) (fn : String) (payload : Option Value)
    (freshId : String) : ControllerState × List Action × Option String :=
  if st.worker = false then (st, [], some "Worker not initialized")
  else if st.initialized = false then (st, [], some "Worker not ready")
  else (runActions st (streamActions freshId fn payload),
        streamActions freshId fn payload, none)

/-- The method `terminate()` (bridge.ts lines 373-381): if a worker exists,
terminate it, null the handle, clear `initialized` and both registries;
otherwise do nothing. Emits no settlement events. -/
def terminate (st : ControllerState) : ControllerState × List Event :=
  if st.worker then
    ({ worker := false, initialized := false
       pendingRequests := mapEmpty, streamingRequests := mapEmpty }, [])
  else (st, [])

/-! ## Execution Runtime (worker/runtime.ts) -/

/-- An entry of `state.instance.exports`: a callable function (which may
trap, modelled by `Except`), or a non-callable export such as `memory`. -/
inductive ExportVal where
  | fnExport (f : List Value → Except String Value)
  | memExport

/-- The runtime's module-wide `state`: the loaded instance's export
table and the `initialized` flag. -/
structure RuntimeState where
  exports : List (String × ExportVal)
  initialized : Bool

/-- A runtime that has not (successfully) handled `init`. -/
def rtUninit : RuntimeState := { exports := [], initialized := false }

/-- The expression `Object.keys(state.instance.exports).filter(k => typeof
state.instance.exports[k] === 'function')` — the names of the callable
exports, in table order. -/
def availableFunctions (t : List (String × ExportVal)) : List String :=
  (t.filter fun p => match p.2 with | .fnExport _ => true | .memExport => false).map
    Prod.fst

/-- Outcome of `fetch(msg.moduleUrl)`: a resolved `Response` (with its
`ok` flag, `status` and `statusText`), or a rejection (network-level
failure, e.g. an unreachable host — `fetch` only rejects in that case and
resolves with `ok = false` for HTTP error statuses). -/
inductive FetchOutcome where
  | response (ok : Bool) (status : Int) (statusText : String)
  | thrown (msg : String)

/-- The handler `handleInit` (runtime.ts lines 431-471), with the outcomes of the two
external collaborators passed as parameters: the `fetch` of the module
locator, and the compile/instantiate step producing the export table (its
failure message when it throws). A thrown `fetch` and a thrown
instantiation are both caught by the surrounding `try/catch`, whose
handler emits `WASM_INIT_FAILED`; only a resolved non-ok response takes
the `MODULE_FETCH_FAILED` branch. -/
def handleInit (st : RuntimeState) (id url : String) (fetchRes : FetchOutcome)
    (instRes : Except String (List (String × ExportVal))) :
    RuntimeState × List WorkerResponse :=
  match fetchRes with
  | .thrown m =>
    (st, [.error id ⟨.WASM_INIT_FAILED,
      "Failed to initialize WASM module: " ++ m,
      some (.vObj [("error", .vStr m)])⟩])
  | .response ok status statusText =>
    if ok = false then
      (st, [.error id ⟨.MODULE_FETCH_FAILED,
        "Failed to fetch module: " ++ statusText,
        some (.vObj [("status", .vNum status), ("url", .vStr url)])⟩])
    else
      match instRes with
      | .error m =>
        (st, [.error id ⟨.WASM_INIT_FAILED,
          "Failed to initialize WASM module: " ++ m,
          some (.vObj [("error", .vStr m)])⟩])
      | .ok table =>
        ({ exports := table, initialized := true },
         [.result id (.vObj [("initialized", .vBool true)])])

/-- The handler `handleCall` (runtime.ts lines 476-522). The payload-to-arguments
branching is inlined exactly as in the source: null/undefined payload →
no arguments; non-array object → `Object.values` in insertion order;
array → elements spread in order; any other scalar → single argument.
A function whose invocation throws is caught and reported as
`WASM_TRAP`. -/
def handleCall (st : RuntimeState) (id fn : String) (payload : Option Value) :
    List WorkerResponse :=
  if st.initialized = false then
    [.error id ⟨.NOT_INITIALIZED, "Worker not initialized with WASM module", none⟩]
  else
    match st.exports.lookup fn with
    | some (.fnExport f) =>
      let args : List Value :=
        match payload with
        | none => []
        | some .vNull => []
        | some (.vObj fields) => fields.map Prod.snd
        | some (.vArr elems) => elems
        | some v => [v]
      match f args with
      | .ok v => [.result id v]
      | .error m =>
        [.error id ⟨.WASM_TRAP, "WASM execution error: " ++ m,
          some (.vObj [("function", .vStr fn), ("error", .vStr m)])⟩]
    | _ =>
      [.error id ⟨.FN_NOT_FOUND,
        "Function \"" ++ fn ++ "\" not found in WASM module",
        some (.vObj [("availableFunctions",
          .vArr ((availableFunctions st.exports).map Value.vStr))])⟩]

/-! ## Stream consumer semantics

The async generator body of `stream` (bridge.ts lines 353-367) iterates:
while `!request.done || request.queue.length > 0`, if the queue is
non-empty yield `queue.shift()`, else suspend on a fresh promise whose
callbacks are installed into `request.resolve`/`request.reject`; the
`finally` clause deletes the registry entry when the generator finishes.
Note the source discards the value the awaited promise resolves with.

The simulator below interleaves consumer steps with inbound deliveries
for the stream's id. A delivery goes through the registry-hit check
(`registered`) and then the exact `handleMessage` branch bodies `onChunk`
and `onClose` — the registry entry and the generator's captured `request`
are the same object, so the simulator tracks that object's state plus
whether the id is still registered. -/

/-- Where the consumer (generator) currently stands. -/
inductive ConsumerPhase where
  | runnable
  | waiting
  | finished
deriving DecidableEq

/-- One iteration of the generator's `while` loop: yield the oldest
buffered chunk if any; otherwise finish if `done`, else install live
promise callbacks and suspend. -/
def consumerStep (s : StreamingRequest) :
    StreamingRequest × Option Value × ConsumerPhase :=
  match s.queue with
  | v :: rest => ({ s with queue := rest }, some v, .runnable)
  | [] =>
    if s.done then (s, none, .finished)
    else ({ s with resolver := .live }, none, .waiting)

/-- Joint state of one stream's Controller-side record and its consumer. -/
structure StreamSim where
  req : StreamingRequest
  registered : Bool
  phase : ConsumerPhase
  yielded : List Value

/-- Schedule items: an inbound `stream_chunk`/`stream_close` delivery for
this stream's id, or the consumer taking one loop iteration. -/
inductive SchedAct where
  | deliverChunk (v : Value)
  | deliverClose
  | consume

/-- One scheduler step. A delivery is dropped when the id is no longer
registered (registry miss in `handleMessage`); a fired resolve callback
wakes a waiting consumer (whose `await` discards the delivered
`IteratorResult`, as in the source). A finishing consumer runs the
`finally` clause, deleting the registry entry. -/
def simStep (sim : StreamSim) : SchedAct → StreamSim
  | .deliverChunk v =>
    if sim.registered then
      let oc := onChunk sim.req v
      { sim with
        req := oc.1
        phase := (match oc.2 with | [] => sim.phase | _ => .runnable) }
    else sim
  | .deliverClose =>
    if sim.registered then
      let oc := onClose sim.req
      { sim with
        req := oc.1
        registered := false
        phase := (match oc.2 with | [] => sim.phase | _ => .runnable) }
    else sim
  | .consume =>
    match sim.phase with
    | .runnable =>
      let cs := consumerStep sim.req
      { req := cs.1
        registered := if cs.2.2 = ConsumerPhase.finished then false else sim.registered
        phase := cs.2.2
        yielded := sim.yielded ++ cs.2.1.toList }
    | _ => sim

/-- Run a schedule. -/
def runSim (sim : StreamSim) (sched : List SchedAct) : StreamSim :=
  sched.foldl simStep sim

/-- The state right after `stream()` registered its record and posted
`stream_open`, with the consumer about to iterate. -/
def startedStream : StreamSim :=
  { req := newStreamingRequest, registered := true
    phase := .runnable, yielded := [] }

/-! ## Spec-side definitions for refinement claims -/

/-- Modelled from the spec's wording of the argument adaptation policy
(§4.2): absent/null payload → zero arguments; non-array structured object
→ its values in insertion order as positional arguments; ordered sequence
→ its elements in order; any other scalar → that single value. -/
def adaptArgsSpec (payload : Option Value) : List Value :=
  match payload with
  | none => []
  | some .vNull => []
  | some (.vObj fields) => fields.map Prod.snd
  | some (.vArr elems) => elems
  | some v => [v]

/-- The posted messages appearing in an action trace, in order. -/
def postedMsgs (tr : List Action) : List WorkerRequestMsg :=
  tr.filterMap fun a => match a with | .post m => some m | _ => none

/-- A trace installs the registry entry for each posted message's id at a
strictly earlier position than the post itself. -/
def registeredBeforePosted (tr : List Action) : Prop :=
  ∀ j m, tr.get? j = some (Action.post m) →
    ∃ i, i < j ∧ ∃ a, tr.get? i = some a ∧ registersFor a m.reqId = true

/-! ## Shared sample states for concrete instantiations -/

/-- A controller with two outstanding calls "A" and "B" and no streams. -/
def ctrlTwoCalls : ControllerState :=
  { worker := true, initialized := true
    pendingRequests := mapSet (mapSet mapEmpty "A" .callReq) "B" .callReq
    streamingRequests := mapEmpty }

/-- A 2-argument add function, trapping on any other argument shape. -/
def addFn : List Value → Except String Value
  | [.vNum a, .vNum b] => .ok (.vNum (a + b))
  | _ => .error "bad args"

/-- An initialized runtime exporting callable `add` and non-callable
`memory`. -/
def rtAdd : RuntimeState :=
  { exports := [("add", .fnExport addFn), ("memory", .memExport)]
    initialized := true }

/-! ## Claim theorems -/

/-- C1: the Controller settles the pending promise for an id at most
once. Settling a pending entry for id X via `result` (resolve) or
`error` (reject) removes the entry in the same step, and any later
`result` or `error` for X — arriving when X is in neither registry —
settles nothing and leaves the whole Controller state (in particular both
registries) unchanged. -/
theorem at_most_once_settlement (st : ControllerState) (id : String)
    (k : PendingKind) (v v2 : Value) (e e2 : ErrInfo)
    (hp : st.pendingRequests id = some k)
    (hs : st.streamingRequests id = none) :
    ((handleMessage st (.result id v)).2 = [.resolved id v]
      ∧ (handleMessage st (.result id v)).1.pendingRequests id = none
      ∧ (handleMessage st (.result id v)).1.streamingRequests id = none)
    ∧ ((handleMessage st (.error id e)).2 = [.rejected id e]
      ∧ (handleMessage st (.error id e)).1.pendingRequests id = none
      ∧ (handleMessage st (.error id e)).1.streamingRequests id = none)
    ∧ (∀ st2 : ControllerState, st2.pendingRequests id = none →
        st2.streamingRequests id = none →
        handleMessage st2 (.result id v2) = (st2, [])
        ∧ handleMessage st2 (.error id e2) = (st2, [])) := by
  refine ⟨⟨?_, ?_, ?_⟩, ⟨?_, ?_, ?_⟩, fun st2 h1 h2 => ⟨?_, ?_⟩⟩
  · cases k <;> simp [handleMessage, hp]
  · cases k <;> simp [handleMessage, hp, mapDelete]
  · cases k <;> simp [handleMessage, hp, hs]
  · simp [handleMessage, hp, hs]
  · simp [handleMessage, hp, hs, mapDelete]
  · simp [handleMessage, hp, hs]
  · simp [handleMessage, h1]
  · simp [handleMessage, h1, h2]

/-- C1 witness: instantiation at a concrete controller holding pending
entry "A". -/
theorem at_most_once_settlement_witness :
    (ctrlTwoCalls.pendingRequests "A" = some PendingKind.callReq)
    ∧ ((handleMessage ctrlTwoCalls (.result "A" (.vNum 7))).2
        = [.resolved "A" (.vNum 7)]
      ∧ (handleMessage ctrlTwoCalls (.result "A" (.vNum 7))).1.pendingRequests "A"
        = none) := by
  have h := at_most_once_settlement ctrlTwoCalls "A" .callReq (.vNum 7) (.vNum 7)
    ⟨.UNKNOWN_ERROR, "m", none⟩ ⟨.UNKNOWN_ERROR, "m", none⟩
    (by simp [ctrlTwoCalls, mapSet, mapEmpty]) (by simp [ctrlTwoCalls, mapEmpty])
  exact ⟨by simp [ctrlTwoCalls, mapSet, mapEmpty], h.1.1, h.1.2.1⟩

/-- C2: demultiplexing is strictly by id. With calls A and B both
pending, processing B's `result` first resolves B with B's value, leaves
A's entry intact, and A's later `result` then resolves A with A's value
and retires A — responses are matched by id, never by arrival order. -/
theorem order_independent_demux (st : ControllerState) (A B : String)
    (vA vB : Value) (hne : A ≠ B)
    (hA : st.pendingRequests A = some .callReq)
    (hB : st.pendingRequests B = some .callReq) :
    (handleMessage st (.result B vB)).2 = [.resolved B vB]
    ∧ (handleMessage st (.result B vB)).1.pendingRequests A = some .callReq
    ∧ (handleMessage (handleMessage st (.result B vB)).1 (.result A vA)).2
        = [.resolved A vA]
    ∧ (handleMessage (handleMessage st (.result B vB)).1
        (.result A vA)).1.pendingRequests A = none := by
  have hA1 : (handleMessage st (.result B vB)).1.pendingRequests A
      = some PendingKind.callReq := by
    simp [handleMessage, hB, mapDelete, hne, hA]
  refine ⟨by simp [handleMessage, hB], hA1,
    by simp [handleMessage, hB, mapDelete, hne, hA],
    by simp [handleMessage, hB, mapDelete, hne, hA]⟩

/-- C2 witness: calls "A" then "B" outstanding; B answered first. -/
theorem order_independent_demux_witness :
    ("A" ≠ "B")
    ∧ ((handleMessage ctrlTwoCalls (.result "B" (.vNum 2))).2
        = [.resolved "B" (.vNum 2)]
      ∧ (handleMessage ctrlTwoCalls (.result "B" (.vNum 2))).1.pendingRequests "A"
        = some PendingKind.callReq
      ∧ (handleMessage (handleMessage ctrlTwoCalls (.result "B" (.vNum 2))).1
          (.result "A" (.vNum 1))).2 = [.resolved "A" (.vNum 1)]) := by
  have h := order_independent_demux ctrlTwoCalls "A" "B" (.vNum 1) (.vNum 2)
    (by decide) (by simp [ctrlTwoCalls, mapSet, mapEmpty])
    (by simp [ctrlTwoCalls, mapSet, mapEmpty])
  exact ⟨by decide, h.1, h.2.1, h.2.2.1⟩

/-- Every delivered chunk leaves the streaming buffer empty: the
`stream_chunk` handler pushes the value and immediately shifts it back
out (the `if (streaming.resolve)` guard always passes), handing it to a
callback that either is a no-op or wakes a consumer that discards the
delivered result. Hence a simulation started at `startedStream` never
yields a value, whatever the schedule. -/
theorem runSim_yields_nothing (sched : List SchedAct) (sim : StreamSim)
    (hq : sim.req.queue = []) (hy : sim.yielded = []) :
    (runSim sim sched).yielded = [] := by
  induction sched generalizing sim with
  | nil => exact hy
  | cons a rest ih =>
    refine ih (simStep sim a) ?_ ?_ <;>
      cases a <;>
        simp [simStep, onChunk, onClose, fireResolve, consumerStep, hq, hy] <;>
          split <;> simp_all [onChunk, fireResolve, hq] <;>
            split <;> simp_all

/-- C3: the claimed stream FIFO fails on the code. With the Runtime
emitting chunks 1, 2, 3 then `stream_close`, the consumer observes no
chunk at all — under the chunks-first schedule and equally under the
schedule where the consumer awaits before each arrival — and the
sequence completes empty, instead of the claimed 1, 2, 3 then
completion. -/
theorem stream_chunks_never_delivered :
    ((runSim startedStream
        [.deliverChunk (.vNum 1), .deliverChunk (.vNum 2),
         .deliverChunk (.vNum 3), .deliverClose, .consume]).yielded = []
      ∧ (runSim startedStream
        [.deliverChunk (.vNum 1), .deliverChunk (.vNum 2),
         .deliverChunk (.vNum 3), .deliverClose, .consume]).phase
          = ConsumerPhase.finished)
    ∧ ((runSim startedStream
        [.consume, .deliverChunk (.vNum 1), .consume, .deliverChunk (.vNum 2),
         .consume, .deliverChunk (.vNum 3), .consume, .deliverClose,
         .consume]).yielded = []
      ∧ (runSim startedStream
        [.consume, .deliverChunk (.vNum 1), .consume, .deliverChunk (.vNum 2),
         .consume, .deliverChunk (.vNum 3), .consume, .deliverClose,
         .consume]).phase = ConsumerPhase.finished) :=
  ⟨⟨rfl, rfl⟩, ⟨rfl, rfl⟩⟩

/-- C4: `call` made when the channel does not exist or `initialized` is
false throws immediately ("Worker not initialized" / "Worker not ready"),
leaving the Controller state unchanged — so no pending entry is created,
no id is consumed — and performing no action, so no message is posted. -/
theorem call_fails_fast_when_not_ready (st : ControllerState)
    (fn : String) (p : Option Value) (freshId : String)
    (h : st.worker = false ∨ st.initialized = false) :
    ∃ m, call st fn p freshId = (st, [], some m) := by
  rcases h with h | h
  · exact ⟨"Worker not initialized", by simp [call, h]⟩
  · rcases hw : st.worker with _ | _
    · exact ⟨"Worker not initialized", by simp [call, hw]⟩
    · exact ⟨"Worker not ready", by simp [call, hw, h]⟩

/-- C4 witness: calling on a controller whose load has not resolved. -/
theorem call_fails_fast_when_not_ready_witness :
    (initialCtrl.worker = false ∨ initialCtrl.initialized = false)
    ∧ ∃ m, call initialCtrl "add" (some (.vObj [("a", .vNum 1), ("b", .vNum 2)]))
        "A" = (initialCtrl, [], some m) :=
  ⟨Or.inl rfl,
   call_fails_fast_when_not_ready initialCtrl "add"
     (some (.vObj [("a", .vNum 1), ("b", .vNum 2)])) "A" (Or.inl rfl)⟩

/-- Helper: on an initialized runtime with a callable export, `handleCall`
invokes it on exactly the adapted argument list. -/
theorem handleCall_invokes (st : RuntimeState) (id fn : String)
    (p : Option Value) (f : List Value → Except String Value)
    (hinit : st.initialized = true)
    (hfn : st.exports.lookup fn = some (.fnExport f)) :
    handleCall st id fn p =
      (match f (adaptArgsSpec p) with
       | .ok v => [.result id v]
       | .error m =>
         [.error id ⟨.WASM_TRAP, "WASM execution error: " ++ m,
           some (.vObj [("function", .vStr fn), ("error", .vStr m)])⟩]) := by
  rcases p with _ | v
  · simp [handleCall, hinit, hfn, adaptArgsSpec]
  · cases v <;> simp [handleCall, hinit, hfn, adaptArgsSpec]

/-- C5: argument adaptation. On an initialized Runtime whose export
table has the named callable, `handleCall` invokes it on the payload
adapted per the documented policy `adaptArgsSpec` — and that policy sends
an absent payload to zero arguments, `{a:5, b:3}` to the positional
arguments `(5, 3)` in insertion order, an array to its elements in
order, and the scalar `7` to the single argument `(7)`. -/
theorem call_payload_adaptation (st : RuntimeState) (id fn : String)
    (p : Option Value) (f : List Value → Except String Value)
    (hinit : st.initialized = true)
    (hfn : st.exports.lookup fn = some (.fnExport f)) :
    (handleCall st id fn p =
      (match f (adaptArgsSpec p) with
       | .ok v => [.result id v]
       | .error m =>
         [.error id ⟨.WASM_TRAP, "WASM execution error: " ++ m,
           some (.vObj [("function", .vStr fn), ("error", .vStr m)])⟩]))
    ∧ adaptArgsSpec none = []
    ∧ adaptArgsSpec (some .vNull) = []
    ∧ adaptArgsSpec (some (.vObj [("a", .vNum 5), ("b", .vNum 3)]))
        = [.vNum 5, .vNum 3]
    ∧ adaptArgsSpec (some (.vArr [.vNum 4, .vNum 6])) = [.vNum 4, .vNum 6]
    ∧ adaptArgsSpec (some (.vNum 7)) = [.vNum 7] :=
  ⟨handleCall_invokes st id fn p f hinit hfn, rfl, rfl, rfl, rfl, rfl⟩

/-- C5 witness: `call("add", {a:5, b:3})` on the sample runtime reaches
`add` with positional arguments `(5, 3)` and returns 8. -/
theorem call_payload_adaptation_witness :
    (rtAdd.initialized = true)
    ∧ (rtAdd.exports.lookup "add" = some (.fnExport addFn))
    ∧ handleCall rtAdd "i1" "add" (some (.vObj [("a", .vNum 5), ("b", .vNum 3)]))
        = [.result "i1" (.vNum 8)] := by
  have h := call_payload_adaptation rtAdd "i1" "add"
    (some (.vObj [("a", .vNum 5), ("b", .vNum 3)])) addFn rfl (by simp [rtAdd])
  exact ⟨rfl, by simp [rtAdd], by rw [h.1]; rfl⟩

/-- C6: `handleCall` error classification. On an uninitialized Runtime it
emits exactly the `NOT_INITIALIZED` error for the call's id and invokes
nothing. On an initialized Runtime whose export table lacks the name, it
emits exactly the `FN_NOT_FOUND` error whose details carry
`availableFunctions`, the names of all callable exports, and invokes
nothing. -/
theorem handleCall_error_classification (st : RuntimeState) (id fn : String)
    (p : Option Value) :
    (st.initialized = false →
      handleCall st id fn p
        = [.error id ⟨.NOT_INITIALIZED,
            "Worker not initialized with WASM module", none⟩])
    ∧ (st.initialized = true → st.exports.lookup fn = none →
      handleCall st id fn p
        = [.error id ⟨.FN_NOT_FOUND,
            "Function \"" ++ fn ++ "\" not found in WASM module",
            some (.vObj [("availableFunctions",
              .vArr ((availableFunctions st.exports).map Value.vStr))])⟩]) :=
  ⟨fun h => by simp [handleCall, h],
   fun h1 h2 => by simp [handleCall, h1, h2]⟩

/-- C6 witness: `call("missingFn", {})` on the initialized sample runtime
rejects with `FN_NOT_FOUND` and `availableFunctions = ["add"]`; a call on
an uninitialized runtime rejects with `NOT_INITIALIZED`. -/
theorem handleCall_error_classification_witness :
    (handleCall rtUninit "i1" "add" none
      = [.error "i1" ⟨.NOT_INITIALIZED,
          "Worker not initialized with WASM module", none⟩])
    ∧ (handleCall rtAdd "i2" "missingFn" (some (.vObj []))
      = [.error "i2" ⟨.FN_NOT_FOUND,
          "Function \"missingFn\" not found in WASM module",
          some (.vObj [("availableFunctions", .vArr [.vStr "add"])])⟩]) := by
  refine ⟨(handleCall_error_classification rtUninit "i1" "add" none).1 rfl, ?_⟩
  have h := (handleCall_error_classification rtAdd "i2" "missingFn"
    (some (.vObj []))).2 rfl (by simp [rtAdd])
  rw [h]; rfl

/-- C7: a trap inside the invoked function is caught. If the looked-up
function fails on the adapted arguments with message `m`, `handleCall`
emits exactly the `WASM_TRAP` error for that call's id, carrying the
function name and the failure message — the handler is a total function,
so nothing propagates — and on the very same runtime state any other call
whose function succeeds still yields its `result`, so the Runtime keeps
serving subsequent calls. -/
theorem wasm_trap_caught (st : RuntimeState) (id fn : String)
    (p : Option Value) (f : List Value → Except String Value) (m : String)
    (hinit : st.initialized = true)
    (hfn : st.exports.lookup fn = some (.fnExport f))
    (htrap : f (adaptArgsSpec p) = .error m) :
    (handleCall st id fn p
      = [.error id ⟨.WASM_TRAP, "WASM execution error: " ++ m,
          some (.vObj [("function", .vStr fn), ("error", .vStr m)])⟩])
    ∧ (∀ (id2 fn2 : String) (p2 : Option Value)
        (g : List Value → Except String Value) (v : Value),
        st.exports.lookup fn2 = some (.fnExport g) →
        g (adaptArgsSpec p2) = .ok v →
        handleCall st id2 fn2 p2 = [.result id2 v]) := by
  constructor
  · rw [handleCall_invokes st id fn p f hinit hfn, htrap]
  · intro id2 fn2 p2 g v hg hok
    rw [handleCall_invokes st id2 fn2 p2 g hinit hg, hok]

/-- C7 witness: `add` trapping on a malformed single-argument payload is
reported as `WASM_TRAP`, and a following well-formed `add` call on the
same state still succeeds. -/
theorem wasm_trap_caught_witness :
    (addFn (adaptArgsSpec (some (.vStr "boom"))) = .error "bad args")
    ∧ (handleCall rtAdd "i1" "add" (some (.vStr "boom"))
      = [.error "i1" ⟨.WASM_TRAP, "WASM execution error: bad args",
          some (.vObj [("function", .vStr "add"), ("error", .vStr "bad args")])⟩])
    ∧ (handleCall rtAdd "i2" "add" (some (.vObj [("a", .vNum 5), ("b", .vNum 3)]))
      = [.result "i2" (.vNum 8)]) := by
  have h := wasm_trap_caught rtAdd "i1" "add" (some (.vStr "boom")) addFn
    "bad args" rfl (by simp [rtAdd]) rfl
  exact ⟨rfl, h.1, h.2 "i2" "add" (some (.vObj [("a", .vNum 5), ("b", .vNum 3)]))
    addFn (.vNum 8) (by simp [rtAdd]) rfl⟩

/-- C8 counterexample: loading an unreachable module locator makes
`fetch` reject (network-level failure), which the surrounding `try/catch`
of `handleInit` classifies as `WASM_INIT_FAILED` — not, as claimed, as
`MODULE_FETCH_FAILED` — while leaving the runtime uninitialized. -/
theorem unreachable_fetch_counterexample :
    ((handleInit rtUninit "i1" "http://unreachable.example/m.wasm"
        (.thrown "Failed to fetch") (.ok [])).2
      = [.error "i1" ⟨.WASM_INIT_FAILED,
          "Failed to initialize WASM module: Failed to fetch",
          some (.vObj [("error", .vStr "Failed to fetch")])⟩])
    ∧ ErrorCode.WASM_INIT_FAILED ≠ ErrorCode.MODULE_FETCH_FAILED
    ∧ (handleInit rtUninit "i1" "http://unreachable.example/m.wasm"
        (.thrown "Failed to fetch") (.ok [])).1.initialized = false :=
  ⟨rfl, by decide, rfl⟩

/-- C8 as amended: `handleInit` classifies module-loading failures as
follows. A fetch that resolves with a non-ok response yields
`MODULE_FETCH_FAILED` carrying the status and locator in details and
leaves the state (hence `initialized`) unchanged; a fetch that rejects —
e.g. an unreachable locator — is caught by the catch-all and yields
`WASM_INIT_FAILED` with the failure message in details, likewise leaving
state unchanged; an instantiation failure yields `WASM_INIT_FAILED` with
the underlying message in details; on success the runtime records the
export table, sets `initialized := true`, and emits
`result{value: {initialized: true}}` for the init id. -/
theorem handleInit_classification (st : RuntimeState) (id url statusText m : String)
    (status : Int) (tbl : List (String × ExportVal))
    (ir : Except String (List (String × ExportVal))) :
    (handleInit st id url (.response false status statusText) ir
      = (st, [.error id ⟨.MODULE_FETCH_FAILED,
          "Failed to fetch module: " ++ statusText,
          some (.vObj [("status", .vNum status), ("url", .vStr url)])⟩]))
    ∧ (handleInit st id url (.thrown m) ir
      = (st, [.error id ⟨.WASM_INIT_FAILED,
          "Failed to initialize WASM module: " ++ m,
          some (.vObj [("error", .vStr m)])⟩]))
    ∧ (handleInit st id url (.response true status statusText) (.error m)
      = (st, [.error id ⟨.WASM_INIT_FAILED,
          "Failed to initialize WASM module: " ++ m,
          some (.vObj [("error", .vStr m)])⟩]))
    ∧ (handleInit st id url (.response true status statusText) (.ok tbl)
      = ({ exports := tbl, initialized := true },
         [.result id (.vObj [("initialized", .vBool true)])])) :=
  ⟨rfl, rfl, rfl, rfl⟩

/-- C9: `terminate` tears down and is idempotent. After terminating a
controller that has a worker: the channel handle is gone, `initialized`
is false, and both registries are empty; termination emits no settlement
events, so in-flight promises are neither resolved nor rejected; a second
`terminate` changes nothing (and again settles nothing); terminating a
never-initialized controller is a safe no-op; and any subsequent `call`
fails fast with the no-worker condition, posting nothing and leaving the
state unchanged. -/
theorem terminate_idempotent_and_clears (st : ControllerState) (fn : String)
    (p : Option Value) (freshId : String) (hw : st.worker = true) :
    ((terminate st).1.worker = false
      ∧ (terminate st).1.initialized = false
      ∧ (∀ id, (terminate st).1.pendingRequests id = none)
      ∧ (∀ id, (terminate st).1.streamingRequests id = none))
    ∧ (terminate st).2 = []
    ∧ terminate (terminate st).1 = ((terminate st).1, [])
    ∧ terminate initialCtrl = (initialCtrl, [])
    ∧ call (terminate st).1 fn p freshId
        = ((terminate st).1, [], some "Worker not initialized") := by
  simp [terminate, hw, initialCtrl, mapEmpty, call]

/-- C9 witness: terminating the sample controller that holds two pending
calls. -/
theorem terminate_idempotent_and_clears_witness :
    (ctrlTwoCalls.worker = true)
    ∧ ((terminate ctrlTwoCalls).1.pendingRequests "A" = none
      ∧ (terminate ctrlTwoCalls).2 = []
      ∧ terminate (terminate ctrlTwoCalls).1 = ((terminate ctrlTwoCalls).1, [])
      ∧ call (terminate ctrlTwoCalls).1 "add" none "C"
          = ((terminate ctrlTwoCalls).1, [], some "Worker not initialized")) := by
  have h := terminate_idempotent_and_clears ctrlTwoCalls "add" none "C" rfl
  exact ⟨rfl, h.1.2.2.1 "A", h.2.1, h.2.2.1, h.2.2.2.2⟩

/-- Helper: a two-action trace that first installs the registration for
the posted message's id and then posts satisfies
`registeredBeforePosted`. -/
theorem rbp_pair (a : Action) (m : WorkerRequestMsg)
    (h : registersFor a m.reqId = true) :
    registeredBeforePosted [a, .post m] := by
  intro j m2 hj
  rcases j with _ | j
  · simp only [List.get?_cons_zero, Option.some.injEq] at hj
    subst hj
    simp [registersFor] at h
  · rcases j with _ | j
    · simp only [List.get?_cons_succ, List.get?_cons_zero, Option.some.injEq] at hj
      injection hj with hm
      subst hm
      exact ⟨0, Nat.zero_lt_one, a, rfl, h⟩
    · simp at hj

/-- C10: each of the Controller's three sending operations installs the
registry entry for its fresh id strictly before posting the
corresponding message: every trace satisfies `registeredBeforePosted`,
and the state in force once the message is on the channel already maps
the fresh id to its entry, so no response for that id can find it
unregistered. -/
theorem register_precedes_post (st : ControllerState) (freshId url fn : String)
    (cfg p : Option Value) (hw : st.worker = true) (hi : st.initialized = true) :
    registeredBeforePosted (initSend st freshId url cfg).2
    ∧ registeredBeforePosted (call st fn p freshId).2.1
    ∧ registeredBeforePosted (streamOpen st fn p freshId).2.1
    ∧ (initSend st freshId url cfg).1.pendingRequests freshId
        = some PendingKind.initReq
    ∧ (call st fn p freshId).1.pendingRequests freshId
        = some PendingKind.callReq
    ∧ (streamOpen st fn p freshId).1.streamingRequests freshId
        = some newStreamingRequest := by
  refine ⟨?_, ?_, ?_, ?_, ?_, ?_⟩
  · simpa [initSend] using
      rbp_pair (.registerPending freshId .initReq) (.initMsg freshId url cfg)
        (by simp [registersFor, WorkerRequestMsg.reqId])
  · simpa [call, hw, hi] using
      rbp_pair (.registerPending freshId .callReq) (.callMsg freshId fn p)
        (by simp [registersFor, WorkerRequestMsg.reqId])
  · simpa [streamOpen, hw, hi] using
      rbp_pair (.registerStreaming freshId) (.streamOpenMsg freshId fn p)
        (by simp [registersFor, WorkerRequestMsg.reqId])
  · simp [initSend, initActions, runActions, applyAction, mapSet]
  · simp [call, hw, hi, callActions, runActions, applyAction, mapSet]
  · simp [streamOpen, hw, hi, streamActions, runActions, applyAction, mapSet]

/-- C10 witness: the three operations on the sample ready controller. -/
theorem register_precedes_post_witness :
    (ctrlTwoCalls.worker = true ∧ ctrlTwoCalls.initialized = true)
    ∧ (registeredBeforePosted (call ctrlTwoCalls "add" none "C").2.1
      ∧ (call ctrlTwoCalls "add" none "C").1.pendingRequests "C"
          = some PendingKind.callReq
      ∧ (streamOpen ctrlTwoCalls "gen" none "D").1.streamingRequests "D"
          = some newStreamingRequest) := by
  have h := register_precedes_post ctrlTwoCalls "C" "/m.wasm" "add" none none
    rfl rfl
  have h2 := register_precedes_post ctrlTwoCalls "D" "/m.wasm" "gen" none none
    rfl rfl
  exact ⟨⟨rfl, rfl⟩, h.2.1, h.2.2.2.2.1, h2.2.2.2.2.2⟩

end WasmWorker
